import Mathlib

/-!
Verification development for the reminders-bun repository.

Shallow embedding conventions:
* instants and durations are milliseconds since the epoch, as `Int`
  (the source computes with `Date.getTime()` millisecond values);
* the SQLite store is a `List Reminder`; row updates by id become `List.map`;
* the cron-parser library is abstracted by an oracle
  `cronNext : String → Int → Option Int` standing for
  `cron_parse.parse(expr, currentDate).next()` (`none` on parse failure);
* effects (emails sent, store writes) are made explicit in return values.
-/

namespace RemindersBun

/-- A contact entry of a reminder, stored in the `reminders` column
(`src/schemas.ts` ReminderModeSchema / part_000 `Contact`). -/
structure Contact where
  mode : String
  address : String
deriving Repr, DecidableEq

/-- An alert entry `alerts: [{id, time}]` where `time` is the offset in
milliseconds before the event (AlertSchema in the updated schemas file). -/
structure Alert where
  id : String
  time : Int
deriving Repr, DecidableEq

/-- In-memory reminder record after DTO transformation
(`src/schemas.ts` ReminderSchema, db.ts table `reminders`).
Instants are milliseconds since the epoch. -/
structure Reminder where
  id : Nat
  title : String
  description : String
  date : Int
  reminders : List Contact
  alerts : List Alert
  is_recurring : Bool
  recurrence : Option String
  start_date : Option Int
  end_date : Option Int
  last_alert_time : Option Int
  is_active : Bool
deriving Repr, DecidableEq

/-- The one-hour stale window of `checkReminders`
(`eventTime.getTime() < now.getTime() - 60 * 60 * 1000`). -/
def STALE_THRESHOLD : Int := 60 * 60 * 1000

/-- `utils.ts` `updateLastAlertTime`: `UPDATE reminders SET last_alert_time = ? WHERE id = ?`. -/
def updateLastAlertTimeStore (id : Nat) (t : Int) (store : List Reminder) : List Reminder :=
  store.map (fun r => if r.id == id then { r with last_alert_time := some t } else r)

/-- `utils.ts` `deactivateReminder`: `UPDATE reminders SET is_active = 0 WHERE id = ?`. -/
def deactivateInStore (id : Nat) (store : List Reminder) : List Reminder :=
  store.map (fun r => if r.id == id then { r with is_active := false } else r)

/-- Modelled from the spec: `route-helpers.ts` `getReminderById` is absent from
the source tree (only imported); §4.1 specifies `findById(id) → Reminder?`,
a lookup of the row with the given id. -/
def findById (id : Nat) (store : List Reminder) : Option Reminder :=
  store.find? (fun r => r.id == id)

/-- JavaScript truthiness of an optional string field
(`null`/absent and the empty string are falsy). -/
def optStrTruthy : Option String → Bool
  | none => false
  | some s => !(s == "")

/-- The guard `if (r.is_recurring && r.recurrence)` of `checkReminders`:
the recurring branch is taken only with `is_recurring` true and a truthy
`recurrence` string; the result is the cron expression used. -/
def recurrenceOf (r : Reminder) : Option String :=
  match r.recurrence with
  | some s => if r.is_recurring && !(s == "") then some s else none
  | none => none

/-- Result shape `{shouldDeactivate, reason?}` of the deactivation predicates. -/
structure DeactivationDecision where
  shouldDeactivate : Bool
  reason : Option String
deriving Repr, DecidableEq

/-- Modelled from the spec: `src/scheduler/helpers.ts` is absent from the
source tree (only its callers part_009 and part_011 remain). Spec §4.3:
if `lastAlertTime` is set, deactivate with reason "already alerted";
else if `eventTime < now − STALE_THRESHOLD`, deactivate with reason
"stale/missed"; else keep. For a one-time reminder `eventTime` is `r.date`.
This matches the inline one-time branch of `checkReminders` in
`src/qstash/verify.ts`. -/
def shouldDeactivateOneTime (r : Reminder) (now : Int) : DeactivationDecision :=
  if r.last_alert_time.isSome then
    { shouldDeactivate := true, reason := some "already alerted" }
  else if r.date < now - STALE_THRESHOLD then
    { shouldDeactivate := true, reason := some "stale/missed" }
  else
    { shouldDeactivate := false, reason := none }

/-- Modelled from the spec: `src/scheduler/helpers.ts` is absent from the
source tree. Spec §4.3: if `endDate` is set and `nextEventTime > endDate`,
deactivate with reason "past end_date"; else keep. This matches the inline
recurring branch of `checkReminders` in `src/qstash/verify.ts`
(`eventTime.getTime() > endDate.getTime()`). -/
def shouldDeactivateRecurring (r : Reminder) (nextEventTime : Int) : DeactivationDecision :=
  match r.end_date with
  | some e =>
      if nextEventTime > e then
        { shouldDeactivate := true, reason := some "past end_date" }
      else
        { shouldDeactivate := false, reason := none }
  | none => { shouldDeactivate := false, reason := none }

/-- The inner alert loop of `checkReminders` (`src/qstash/verify.ts`):
iterate the alert offsets in order; for each, `alertTime = eventTime − offset`,
`diff = now − alertTime`; when `0 ≤ diff < interval`, skip the alert if the
reminder is recurring with `last_alert_time ≥ alertTime`, otherwise fire it
and break. Returns the offset fired, if any. -/
def selectOffset (isRec : Bool) (last : Option Int) (eventTime now interval : Int) :
    List Int → Option Int
  | [] => none
  | o :: rest =>
    let alertTime := eventTime - o
    let diff := now - alertTime
    if 0 ≤ diff ∧ diff < interval then
      if isRec && (match last with | some l => decide (alertTime ≤ l) | none => false) then
        selectOffset isRec last eventTime now interval rest
      else some o
    else selectOffset isRec last eventTime now interval rest

/-- Spec-side predicate (§4.4): an alert offset is due this tick iff
`0 ≤ diff < tickInterval` for `diff = now − (eventTime − offset)`. -/
def dueThisTickSpec (eventTime now interval o : Int) : Bool :=
  decide (0 ≤ now - (eventTime - o)) && decide (now - (eventTime - o) < interval)

/-- Spec-side predicate (§4.4): the alert is already acknowledged for this
recurrence iff the reminder is recurring, `lastAlertTime` is set, and
`lastAlertTime ≥ alertInstant`. -/
def alreadyAckedSpec (isRec : Bool) (last : Option Int) (eventTime o : Int) : Bool :=
  isRec && (match last with | some l => decide (eventTime - o ≤ l) | none => false)

/-- Spec-side predicate (§4.4): an alert passes both checks. -/
def alertPassesSpec (isRec : Bool) (last : Option Int) (eventTime now interval o : Int) : Bool :=
  dueThisTickSpec eventTime now interval o && !(alreadyAckedSpec isRec last eventTime o)

/-- Outcome of processing one reminder in one tick of `checkReminders`. -/
inductive TickOutcome where
  /-- inactive reminder, empty alerts, or cron parse failure: skipped -/
  | skipped
  /-- deactivated with the given reason, no dispatch -/
  | deactivated (reason : String)
  /-- the alert with this offset fired: dispatch + `updateLastAlertTime(now)` -/
  | fired (offsetMs : Int)
  /-- kept active, no alert due -/
  | idle
deriving Repr, DecidableEq

/-- Number of dispatch-and-acknowledge actions an outcome performs. -/
def dispatchCount : TickOutcome → Nat
  | .fired _ => 1
  | _ => 0

/-- The tail of the per-reminder body of `checkReminders`: run the alert
selection at the given event time and fire at most the first passing alert. -/
def fireStep (r : Reminder) (eventTime now interval : Int) : TickOutcome :=
  match selectOffset r.is_recurring r.last_alert_time eventTime now interval
      (r.alerts.map (fun a => a.time)) with
  | some o => .fired o
  | none => .idle

/-- Per-reminder body of `checkReminders`
(`src/qstash/verify.ts` and part_011): skip inactive reminders and empty
alert lists; recurring reminders get their next cron occurrence (skip on
parse failure) and the past-end_date deactivation check; one-time reminders
get the already-alerted and stale checks; survivors run alert selection. -/
def processReminder (cronNext : String → Int → Option Int) (interval now : Int)
    (r : Reminder) : TickOutcome :=
  if !r.is_active then .skipped
  else if r.alerts.isEmpty then .skipped
  else
    match recurrenceOf r with
    | some expr =>
      match cronNext expr now with
      | none => .skipped
      | some eventTime =>
        let d := shouldDeactivateRecurring r eventTime
        if d.shouldDeactivate then .deactivated (d.reason.getD "")
        else fireStep r eventTime now interval
    | none =>
      let d := shouldDeactivateOneTime r now
      if d.shouldDeactivate then .deactivated (d.reason.getD "")
      else fireStep r r.date now interval

/-- One email dispatch: (address, subject, body) as passed to `sendEmail`. -/
structure EmailDispatch where
  address : String
  subject : String
  body : String
deriving Repr, DecidableEq

/-- `src/scheduler/notification-service.ts` `sendNotifications`: iterate the
contacts; for each contact with `mode === "email"` call
`sendEmail(contact.address, reminder.title, reminder.description)`;
other modes are skipped, per-contact failures are swallowed. The embedding
returns the list of email dispatches performed. -/
def sendNotifications (r : Reminder) (contacts : List Contact) : List EmailDispatch :=
  (contacts.filter (fun c => c.mode == "email")).map
    (fun c => { address := c.address, subject := r.title, body := r.description })

/-- The per-reminder decision of `cleanupStaleReminders` (part_009):
recurring reminders (truthy recurrence) use the next cron occurrence
(`continue` on parse failure) and `shouldDeactivateRecurring`; all others use
`shouldDeactivateOneTime`. Returns the reason when the reminder is to be
deactivated. -/
def cleanupDecision (cronNext : String → Int → Option Int) (now : Int)
    (r : Reminder) : Option String :=
  match recurrenceOf r with
  | some expr =>
    match cronNext expr now with
    | none => none
    | some t =>
      let d := shouldDeactivateRecurring r t
      if d.shouldDeactivate then some (d.reason.getD "") else none
  | none =>
    let d := shouldDeactivateOneTime r now
    if d.shouldDeactivate then some (d.reason.getD "") else none

/-- The loop of `cleanupStaleReminders` over the snapshot of active
reminders, threading the store and the deactivation counter. -/
def cleanupGo (cronNext : String → Int → Option Int) (now : Int) :
    List Reminder → List Reminder × Nat → List Reminder × Nat
  | [], acc => acc
  | r :: rest, (s, d) =>
    match cleanupDecision cronNext now r with
    | some _ => cleanupGo cronNext now rest (deactivateInStore r.id s, d + 1)
    | none => cleanupGo cronNext now rest (s, d)

/-- Result of the cleanup sweep: the final store, the returned counts, and
the (empty) list of notifications it sent. -/
structure CleanupResult where
  store : List Reminder
  checked : Nat
  deactivated : Nat
  dispatches : List EmailDispatch
deriving Repr, DecidableEq

/-- `cleanupStaleReminders` (part_009): read the active reminders
(`repo.findActive()`), deactivate each one whose deactivation predicate
holds, never send notifications, and return
`{deactivated, checked: reminders.length}`. -/
def cleanupStaleReminders (cronNext : String → Int → Option Int) (now : Int)
    (store : List Reminder) : CleanupResult :=
  let active := store.filter (fun r => r.is_active)
  let res := cleanupGo cronNext now active (store, 0)
  { store := res.1, checked := active.length, deactivated := res.2, dispatches := [] }

/-- The environment configuration read by `src/qstash/verify.ts`. -/
structure Env where
  nodeEnv : String
  currentSigningKey : Option String
deriving Repr, DecidableEq

/-- Result of signature verification, with an explicit flag recording
whether the cryptographic check (`receiver.verify`) was reached. -/
structure VerifyOutcome where
  valid : Bool
  attempted : Bool
deriving Repr, DecidableEq

/-- `src/qstash/verify.ts` `verifyQStashSignature`: in development return
true; if the signature header or `QSTASH_CURRENT_SIGNING_KEY` is falsy,
return true (verification skipped); otherwise run the cryptographic check,
true on success and false on exception. `cryptoVerify` abstracts
`receiver.verify` on (signature, body). -/
def verifyQStashSignature (env : Env) (cryptoVerify : String → String → Bool)
    (signature : Option String) (body : String) : VerifyOutcome :=
  if env.nodeEnv == "development" then { valid := true, attempted := false }
  else
    match signature with
    | none => { valid := true, attempted := false }
    | some s =>
      if s == "" || !(optStrTruthy env.currentSigningKey) then
        { valid := true, attempted := false }
      else
        { valid := cryptoVerify s body, attempted := true }

/-- Webhook body `{reminderId, alertTime?, isRecurring?}` (part_003). -/
structure WebhookPayload where
  reminderId : Nat
  isRecurring : Option Bool
deriving Repr, DecidableEq

/-- JSON response of the reminder-alert webhook. -/
inductive WebhookResponse where
  | invalidSignature
  | skipped (reason : String)
  | ok (reminderTitle : String)
deriving Repr, DecidableEq

/-- Full observable result of one webhook call: HTTP status, response body,
resulting store, and notifications sent. -/
structure RouteResult where
  status : Nat
  response : WebhookResponse
  store : List Reminder
  dispatches : List EmailDispatch
deriving Repr, DecidableEq

/-- JavaScript `!x` on the optional boolean payload field `isRecurring`:
true for absent and for false. -/
def jsNotTrue : Option Bool → Bool
  | some true => false
  | _ => true

/-- `webhookReminderAlertRoute` (part_003): verify the QStash signature
(401 and no side effects on failure); look up the reminder (skip responses
for missing or inactive); otherwise send notifications, set
`last_alert_time` to now, deactivate when neither the payload `isRecurring`
nor the stored `is_recurring` is true, and respond ok with the title. -/
def webhookReminderAlertRoute (env : Env) (cryptoVerify : String → String → Bool)
    (signature : Option String) (rawBody : String) (now : Int)
    (payload : WebhookPayload) (store : List Reminder) : RouteResult :=
  if !(verifyQStashSignature env cryptoVerify signature rawBody).valid then
    { status := 401, response := .invalidSignature, store := store, dispatches := [] }
  else
    match findById payload.reminderId store with
    | none =>
      { status := 200, response := .skipped "reminder_not_found", store := store,
        dispatches := [] }
    | some reminder =>
      if !reminder.is_active then
        { status := 200, response := .skipped "inactive", store := store,
          dispatches := [] }
      else
        let dispatches := sendNotifications reminder reminder.reminders
        let s1 := updateLastAlertTimeStore reminder.id now store
        let s2 :=
          if jsNotTrue payload.isRecurring && !reminder.is_recurring then
            deactivateInStore reminder.id s1
          else s1
        { status := 200, response := .ok reminder.title, store := s2,
          dispatches := dispatches }

/-- Create-reminder request body (`TCreateReminderInput`). -/
structure CreateInput where
  title : String
  date : Int
  description : String
  reminders : List Contact
  alerts : List Alert
  is_recurring : Bool
  recurrence : Option String
  start_date : Option Int
  end_date : Option Int
  is_active : Option Bool
deriving Repr, DecidableEq

/-- Response of the create-reminder route. -/
inductive CreateStatus where
  | badRequest (msg : String)
  | created (id : Nat)
deriving Repr, DecidableEq

/-- `src/route-handlers/create-reminder.ts` `createReminderRoute`: reject
(400) a recurring input missing a truthy recurrence or start_date; otherwise
insert the row with `last_alert_time = NULL` and
`is_active = (r.is_active === false ? 0 : 1)` and respond 201 with the new
id. The handler performs no other validation on the body. `newId` stands
for the row id assigned by SQLite. -/
def createReminderRoute (input : CreateInput) (newId : Nat) (store : List Reminder) :
    CreateStatus × List Reminder :=
  if input.is_recurring &&
      (!(optStrTruthy input.recurrence) || !input.start_date.isSome) then
    (.badRequest "Recurring events must have recurrence string and start_date", store)
  else
    (.created newId,
      store ++ [{ id := newId, title := input.title, description := input.description,
                  date := input.date, reminders := input.reminders,
                  alerts := input.alerts, is_recurring := input.is_recurring,
                  recurrence := input.recurrence, start_date := input.start_date,
                  end_date := input.end_date, last_alert_time := none,
                  is_active := !(input.is_active == some false) }])

/-- The declared validation rule of `AlertSchema`
(`z.number().min(3000, "Alert must be at least 3000 milliseconds")`) in the
updated schemas module: an alert offset is valid iff it is at least 3000 ms. -/
def alertSchemaValid (a : Alert) : Bool :=
  decide (3000 ≤ a.time)

/-- Modelled from the spec: `src/repositories/sqlite-reminder-repository.ts`
is absent from the source tree (only the factory part_001 that imports it).
Spec §4.1: `deleteBulk([id]) → countDeleted` deletes the rows whose ids are
in the list (`DELETE FROM reminders WHERE id IN (...)`) and returns the
number of rows actually deleted. -/
def deleteBulk (ids : List Nat) (store : List Reminder) : List Reminder × Nat :=
  let remaining := store.filter (fun r => !(ids.contains r.id))
  (remaining, store.length - remaining.length)

/-- Cron oracle standing for a parse failure on every expression. -/
def cronNone : String → Int → Option Int := fun _ _ => none

/-- Cron oracle returning a fixed next occurrence. -/
def cronConst (t : Int) : String → Int → Option Int := fun _ _ => some t

/-- A concrete one-time reminder used by witnesses. -/
def sampleReminder : Reminder :=
  { id := 1, title := "Doctor appointment", description := "Annual checkup",
    date := 1748772000000, reminders := [{ mode := "email", address := "a@b.c" }],
    alerts := [{ id := "alert-1", time := 60000 }], is_recurring := false,
    recurrence := none, start_date := none, end_date := none,
    last_alert_time := none, is_active := true }

/-- A concrete recurring reminder with `last_alert_time` set, used by witnesses. -/
def sampleRecurring : Reminder :=
  { id := 2, title := "Standup", description := "Daily standup",
    date := 1748772000000, reminders := [{ mode := "email", address := "a@b.c" }],
    alerts := [{ id := "alert-0", time := 0 }], is_recurring := true,
    recurrence := some "*/5 * * * *", start_date := some 1748685600000,
    end_date := none, last_alert_time := some 1748772000000, is_active := true }

/-- A concrete recurring reminder with an `end_date`, used by witnesses. -/
def sampleRecurringEnd : Reminder :=
  { id := 3, title := "Morning brief", description := "Daily brief",
    date := 1748772000000, reminders := [{ mode := "email", address := "a@b.c" }],
    alerts := [{ id := "alert-0", time := 5000 }], is_recurring := true,
    recurrence := some "0 9 * * *", start_date := some 1748685600000,
    end_date := some 1748736000000, last_alert_time := none, is_active := true }

/-- A concrete create-reminder request whose only alert offset is 1000 ms,
below the declared 3000 ms floor. -/
def floorViolatingInput : CreateInput :=
  { title := "Grocery run", date := 1748772000000, description := "Buy milk",
    reminders := [{ mode := "email", address := "a@b.c" }],
    alerts := [{ id := "alert-1", time := 1000 }], is_recurring := false,
    recurrence := none, start_date := none, end_date := none, is_active := none }

/-! ## Helper lemmas -/

theorem selectOffset_cons (isRec : Bool) (last : Option Int) (et now iv o : Int)
    (rest : List Int) :
    selectOffset isRec last et now iv (o :: rest)
      = if alertPassesSpec isRec last et now iv o then some o
        else selectOffset isRec last et now iv rest := by
  cases last with
  | none =>
    cases isRec <;>
      simp only [selectOffset, alertPassesSpec, dueThisTickSpec, alreadyAckedSpec] <;>
      by_cases h1 : 0 ≤ now - (et - o) <;> by_cases h2 : now - (et - o) < iv <;>
        simp [h1, h2]
  | some l =>
    cases isRec <;>
      simp only [selectOffset, alertPassesSpec, dueThisTickSpec, alreadyAckedSpec] <;>
      by_cases h1 : 0 ≤ now - (et - o) <;> by_cases h2 : now - (et - o) < iv <;>
        by_cases h3 : et - o ≤ l <;>
        first
        | (have h3' : et ≤ l + o := by omega
           simp [h1, h2, h3, h3'])
        | (have h3' : ¬(et ≤ l + o) := by omega
           simp [h1, h2, h3, h3'])

theorem selectOffset_eq_find (isRec : Bool) (last : Option Int) (et now iv : Int)
    (os : List Int) :
    selectOffset isRec last et now iv os
      = os.find? (fun o => alertPassesSpec isRec last et now iv o) := by
  induction os with
  | nil => rfl
  | cons o rest ih =>
    rw [selectOffset_cons]
    by_cases hp : alertPassesSpec isRec last et now iv o = true
    · rw [if_pos hp, List.find?_cons_of_pos _ hp]
    · rw [if_neg (by simp [hp]), List.find?_cons_of_neg _ (by simp [hp]), ih]

theorem recurrenceOf_eq_none (r : Reminder) (h : r.is_recurring = false) :
    recurrenceOf r = none := by
  unfold recurrenceOf
  cases hr : r.recurrence with
  | none => rfl
  | some s => simp [h]

theorem recurrenceOf_eq_some (r : Reminder) (expr : String)
    (h : recurrenceOf r = some expr) :
    r.is_recurring = true ∧ r.recurrence = some expr := by
  unfold recurrenceOf at h
  split at h
  next s heq =>
    split at h
    next hb =>
      obtain ⟨h1, _⟩ := Bool.and_eq_true_iff.mp hb
      exact ⟨h1, by rw [heq]; exact h⟩
    next hb => exact absurd h (by simp)
  next heq => exact absurd h (by simp)

theorem selectOffset_ne_of_acked (l et now iv o : Int) (hack : et - o ≤ l)
    (os : List Int) :
    selectOffset true (some l) et now iv os ≠ some o := by
  induction os with
  | nil => simp [selectOffset]
  | cons o' rest ih =>
    rw [selectOffset_cons]
    by_cases hp : alertPassesSpec true (some l) et now iv o' = true
    · rw [if_pos hp]
      intro h
      rw [Option.some_inj.mp h] at hp
      simp [alertPassesSpec, alreadyAckedSpec, hack] at hp
    · rw [if_neg (by simp [hp])]
      exact ih

theorem alerts_isEmpty_false (r : Reminder) (h : r.alerts ≠ []) :
    r.alerts.isEmpty = false := by
  cases ha : r.alerts with
  | nil => exact absurd ha h
  | cons a l => rfl

theorem cleanupGo_count (c : String → Int → Option Int) (n : Int)
    (ts : List Reminder) : ∀ (s : List Reminder) (d : Nat),
    (cleanupGo c n ts (s, d)).2
      = d + (ts.filter (fun r => (cleanupDecision c n r).isSome)).length := by
  induction ts with
  | nil => intro s d; simp [cleanupGo]
  | cons r rest ih =>
    intro s d
    cases hd : cleanupDecision c n r with
    | some reason => simp [cleanupGo, hd, ih, List.filter_cons]; omega
    | none => simp [cleanupGo, hd, ih, List.filter_cons]

theorem cleanupGo_store (c : String → Int → Option Int) (n : Int)
    (ts : List Reminder) : ∀ (s : List Reminder) (d : Nat),
    (cleanupGo c n ts (s, d)).1
      = s.map (fun x =>
          if x.id ∈ (ts.filter (fun r => (cleanupDecision c n r).isSome)).map
              (fun r => r.id) then
            { x with is_active := false }
          else x) := by
  induction ts with
  | nil =>
    intro s d
    simp [cleanupGo]
  | cons r rest ih =>
    intro s d
    cases hd : cleanupDecision c n r with
    | some reason =>
      have step : cleanupGo c n (r :: rest) (s, d)
          = cleanupGo c n rest (deactivateInStore r.id s, d + 1) := by
        simp [cleanupGo, hd]
      rw [step, ih, deactivateInStore, List.map_map]
      refine List.map_congr_left (fun x hx => ?_)
      simp only [Function.comp, List.filter_cons, hd, Option.isSome_some,
        List.map_cons, List.mem_cons]
      by_cases he : x.id = r.id <;>
        by_cases hm : x.id ∈ (rest.filter
            (fun r => (cleanupDecision c n r).isSome)).map (fun r => r.id) <;>
          simp [he, hm]
    | none =>
      have step : cleanupGo c n (r :: rest) (s, d) = cleanupGo c n rest (s, d) := by
        simp [cleanupGo, hd]
      have hfilter : (r :: rest).filter (fun r => (cleanupDecision c n r).isSome)
          = rest.filter (fun r => (cleanupDecision c n r).isSome) := by
        simp [List.filter_cons, hd]
      rw [step, ih, hfilter]

/-! ## Claim theorems -/

/-- Claim C1: for every reminder processed in a tick, the alert selection of
`checkReminders` fires at most one alert; iterating the offsets in order, the
selected alert is exactly the first one that is due this tick
(`0 ≤ diff < tickInterval`, half-open) and not already acknowledged, and any
selected alert lies in the due window; so at most one dispatch-and-acknowledge
happens per reminder per tick and the first matching offset wins. -/
theorem checkReminders_at_most_one_alert
    (cronNext : String → Int → Option Int) (iv now : Int) (r : Reminder)
    (isRec : Bool) (last : Option Int) (et : Int) (os : List Int) :
    dispatchCount (processReminder cronNext iv now r) ≤ 1
    ∧ selectOffset isRec last et now iv os
        = os.find? (fun o => alertPassesSpec isRec last et now iv o)
    ∧ (∀ o, selectOffset isRec last et now iv os = some o →
        dueThisTickSpec et now iv o = true) := by
  refine ⟨?_, selectOffset_eq_find isRec last et now iv os, ?_⟩
  · cases processReminder cronNext iv now r <;> simp [dispatchCount]
  · intro o h
    rw [selectOffset_eq_find] at h
    have hp := List.find?_some h
    exact (Bool.and_eq_true_iff.mp hp).1

/-- Closed witness for C1: a single 60 s offset with the event 60 s away is
selected and is indeed inside the half-open due window. -/
theorem checkReminders_at_most_one_alert_witness :
    dueThisTickSpec 100000 40000 3000 60000 = true :=
  (checkReminders_at_most_one_alert cronNone 3000 40000 sampleReminder
      false none 100000 [60000]).2.2 60000 (by decide)

/-- Claim C2: a one-time (non-recurring) active reminder with alerts is
deactivated with reason "already alerted" when `last_alert_time` is set,
else deactivated with reason "stale/missed" when its event time is more than
one hour before now, and otherwise proceeds to alert selection at its stored
event time. -/
theorem checkReminders_one_time_deactivation
    (cronNext : String → Int → Option Int) (iv now : Int) (r : Reminder)
    (hact : r.is_active = true) (halerts : r.alerts ≠ [])
    (hrec : r.is_recurring = false) :
    (r.last_alert_time.isSome = true →
        processReminder cronNext iv now r = .deactivated "already alerted")
    ∧ (r.last_alert_time = none → r.date < now - STALE_THRESHOLD →
        processReminder cronNext iv now r = .deactivated "stale/missed")
    ∧ (r.last_alert_time = none → ¬(r.date < now - STALE_THRESHOLD) →
        processReminder cronNext iv now r = fireStep r r.date now iv) := by
  have hre : recurrenceOf r = none := recurrenceOf_eq_none r hrec
  have hempty : r.alerts.isEmpty = false := alerts_isEmpty_false r halerts
  refine ⟨?_, ?_, ?_⟩
  · intro hsome
    simp [processReminder, hact, hempty, hre, shouldDeactivateOneTime, hsome]
  · intro hnone hstale
    simp [processReminder, hact, hempty, hre, shouldDeactivateOneTime, hnone, hstale]
  · intro hnone hfresh
    simp [processReminder, hact, hempty, hre, shouldDeactivateOneTime, hnone, hfresh]

/-- Closed witness for C2: the sample one-time reminder observed exactly at
its event time is kept and proceeds to alert selection. -/
theorem checkReminders_one_time_deactivation_witness :
    processReminder cronNone 3000 1748772000000 sampleReminder
      = fireStep sampleReminder sampleReminder.date 1748772000000 3000 :=
  (checkReminders_one_time_deactivation cronNone 3000 1748772000000 sampleReminder
      rfl (by decide) rfl).2.2 rfl (by decide)

/-- Claim C3: for a recurring reminder with `last_alert_time` set, an alert
whose alert instant `eventTime − offset` satisfies
`last_alert_time ≥ alertInstant` is skipped and never dispatched, even if its
diff is inside the due window. -/
theorem checkReminders_recurring_ack_skip
    (cronNext : String → Int → Option Int) (iv now : Int) (r : Reminder)
    (expr : String) (et l o : Int)
    (hre : recurrenceOf r = some expr)
    (hcron : cronNext expr now = some et)
    (hlast : r.last_alert_time = some l)
    (hack : et - o ≤ l) :
    processReminder cronNext iv now r ≠ .fired o := by
  have hisrec : r.is_recurring = true := (recurrenceOf_eq_some r expr hre).1
  by_cases hact : r.is_active
  · by_cases hempty : r.alerts.isEmpty = true
    · simp [processReminder, hact, hempty]
    · simp only [processReminder, hact, Bool.not_true, Bool.false_eq_true,
        if_false, hempty, hre, hcron]
      by_cases hd : (shouldDeactivateRecurring r et).shouldDeactivate = true
      · simp [hd]
      · simp only [hd, Bool.false_eq_true, if_false, fireStep, hisrec, hlast]
        cases hsel : selectOffset true (some l) et now iv
            (r.alerts.map (fun a => a.time)) with
        | none => simp
        | some o' =>
          simp only [ne_eq, TickOutcome.fired.injEq]
          intro heq
          rw [heq] at hsel
          exact selectOffset_ne_of_acked l et now iv o hack _ hsel
  · simp [processReminder, Bool.not_eq_true _ ▸ hact]

/-- Closed witness for C3: the sample recurring reminder whose
`last_alert_time` equals the next occurrence does not fire its 0-offset
alert. -/
theorem checkReminders_recurring_ack_skip_witness :
    processReminder (cronConst 1748772000000) 3000 1748772000000 sampleRecurring
      ≠ .fired 0 :=
  checkReminders_recurring_ack_skip (cronConst 1748772000000) 3000 1748772000000
    sampleRecurring "*/5 * * * *" 1748772000000 1748772000000 0
    (by decide) rfl rfl (by decide)

/-- Claim C4: an active recurring reminder whose next cron occurrence is
strictly past its `end_date` is deactivated with reason "past end_date" in
that tick (so no alert is dispatched); with no `end_date`, or a next
occurrence not past it, the reminder is kept and proceeds to alert
selection. -/
theorem checkReminders_recurring_end_date
    (cronNext : String → Int → Option Int) (iv now : Int) (r : Reminder)
    (expr : String) (et : Int)
    (hact : r.is_active = true) (halerts : r.alerts ≠ [])
    (hre : recurrenceOf r = some expr)
    (hcron : cronNext expr now = some et) :
    (∀ e, r.end_date = some e → e < et →
        processReminder cronNext iv now r = .deactivated "past end_date")
    ∧ ((r.end_date = none ∨ ∃ e, r.end_date = some e ∧ ¬(e < et)) →
        processReminder cronNext iv now r = fireStep r et now iv) := by
  have hempty : r.alerts.isEmpty = false := alerts_isEmpty_false r halerts
  constructor
  · intro e hend hgt
    simp [processReminder, hact, hempty, hre, hcron, shouldDeactivateRecurring,
      hend, hgt]
  · intro hkeep
    rcases hkeep with hend | ⟨e, hend, hle⟩
    · simp [processReminder, hact, hempty, hre, hcron, shouldDeactivateRecurring, hend]
    · simp [processReminder, hact, hempty, hre, hcron, shouldDeactivateRecurring,
        hend, hle]

/-- Closed witness for C4: the sample recurring reminder whose next
occurrence is past its end date is deactivated with reason "past end_date". -/
theorem checkReminders_recurring_end_date_witness :
    processReminder (cronConst 1748822400000) 3000 1748790000000 sampleRecurringEnd
      = .deactivated "past end_date" :=
  (checkReminders_recurring_end_date (cronConst 1748822400000) 3000 1748790000000
      sampleRecurringEnd "0 9 * * *" 1748822400000 rfl (by decide) (by decide)
      rfl).1 1748736000000 rfl (by decide)

/-- Claim C5: the cleanup sweep sends no notification for any store state;
it reads the active reminders, sets `is_active` to false on exactly those
meeting the deactivation predicates, changes no other field of any reminder,
and returns the counts checked (number of active reminders) and deactivated. -/
theorem cleanup_no_dispatch_frame (c : String → Int → Option Int) (now : Int)
    (store : List Reminder) (h : (store.map (fun r => r.id)).Nodup) :
    (cleanupStaleReminders c now store).dispatches = []
    ∧ (cleanupStaleReminders c now store).checked
        = (store.filter (fun r => r.is_active)).length
    ∧ (cleanupStaleReminders c now store).deactivated
        = ((store.filter (fun r => r.is_active)).filter
            (fun r => (cleanupDecision c now r).isSome)).length
    ∧ (cleanupStaleReminders c now store).store
        = store.map (fun r =>
            if r.is_active && (cleanupDecision c now r).isSome then
              { r with is_active := false }
            else r) := by
  refine ⟨rfl, rfl, ?_, ?_⟩
  · show (cleanupGo c now (store.filter (fun r => r.is_active)) (store, 0)).2 = _
    rw [cleanupGo_count]
    simp
  · show (cleanupGo c now (store.filter (fun r => r.is_active)) (store, 0)).1 = _
    rw [cleanupGo_store]
    refine List.map_congr_left (fun x hx => ?_)
    by_cases hb : (x.is_active && (cleanupDecision c now x).isSome) = true
    · have hmem : x.id ∈ ((store.filter (fun r => r.is_active)).filter
          (fun r => (cleanupDecision c now r).isSome)).map (fun r => r.id) := by
        rcases Bool.and_eq_true_iff.mp hb with ⟨ha, hp⟩
        exact List.mem_map.mpr
          ⟨x, List.mem_filter.mpr ⟨List.mem_filter.mpr ⟨hx, ha⟩, hp⟩, rfl⟩
      rw [if_pos hmem, if_pos hb]
    · have hmem : x.id ∉ ((store.filter (fun r => r.is_active)).filter
          (fun r => (cleanupDecision c now r).isSome)).map (fun r => r.id) := by
        intro hin
        rcases List.mem_map.mp hin with ⟨y, hy, hid⟩
        rcases List.mem_filter.mp hy with ⟨hy1, hyp⟩
        rcases List.mem_filter.mp hy1 with ⟨hys, hya⟩
        have hxy : y = x := List.inj_on_of_nodup_map h hys hx hid
        rw [hxy] at hya hyp
        exact hb (by simp [hya, hyp])
      rw [if_neg hmem, if_neg hb]

/-- Closed witness for C5: a two-reminder store where the recurring reminder
is past its end date; the cleanup sweep dispatches nothing. -/
theorem cleanup_no_dispatch_frame_witness :
    (cleanupStaleReminders (cronConst 1748822400000) 1748790000000
        [sampleReminder, sampleRecurringEnd]).dispatches = [] :=
  (cleanup_no_dispatch_frame (cronConst 1748822400000) 1748790000000
      [sampleReminder, sampleRecurringEnd] (by decide)).1

/-- Claim C6: a reminder-alert webhook call whose signature fails
verification returns HTTP 401 with no side effects: the store is unchanged
and no notification is dispatched. -/
theorem webhook_invalid_signature_no_side_effects
    (env : Env) (cv : String → String → Bool) (sig : Option String)
    (rawBody : String) (now : Int) (payload : WebhookPayload)
    (store : List Reminder)
    (h : (verifyQStashSignature env cv sig rawBody).valid = false) :
    webhookReminderAlertRoute env cv sig rawBody now payload store
      = { status := 401, response := .invalidSignature, store := store,
          dispatches := [] } := by
  simp [webhookReminderAlertRoute, h]

/-- Closed witness for C6: outside development with keys configured and a
rejecting cryptographic check, the route answers 401 and leaves the
one-reminder store untouched. -/
theorem webhook_invalid_signature_no_side_effects_witness :
    webhookReminderAlertRoute { nodeEnv := "production", currentSigningKey := some "k" }
        (fun _ _ => false) (some "sig") "raw" 1748772000000
        { reminderId := 1, isRecurring := none } [sampleReminder]
      = { status := 401, response := .invalidSignature, store := [sampleReminder],
          dispatches := [] } :=
  webhook_invalid_signature_no_side_effects
    { nodeEnv := "production", currentSigningKey := some "k" }
    (fun _ _ => false) (some "sig") "raw" 1748772000000
    { reminderId := 1, isRecurring := none } [sampleReminder] (by decide)

/-- Counterexample to claim C7 as stated: with the payload `isRecurring`
ABSENT (not false) and the stored reminder non-recurring, the verified
webhook still deactivates the reminder, although the claim restricts
deactivation to payloads whose `isRecurring` is false. -/
theorem webhook_deactivates_on_absent_isRecurring :
    ((webhookReminderAlertRoute { nodeEnv := "development", currentSigningKey := none }
        (fun _ _ => true) none "raw" 1748772000000
        { reminderId := 1, isRecurring := none } [sampleReminder]).store.map
      (fun r => r.is_active)) = [false]
    ∧ ({ reminderId := 1, isRecurring := none } : WebhookPayload).isRecurring
        ≠ some false := by
  exact ⟨rfl, by simp⟩

/-- Claim C7 (amended): for a verified reminder-alert webhook call, a missing
reminder id produces the skipped/reminder_not_found response with no store
change and no dispatch; an inactive reminder produces skipped/inactive
likewise; otherwise the route dispatches to the email contacts, sets
`last_alert_time` to now, deactivates exactly when the payload `isRecurring`
is not true (false or absent) and the stored `is_recurring` is false, and
responds ok with the reminder title. -/
theorem webhook_verified_flow
    (env : Env) (cv : String → String → Bool) (sig : Option String)
    (rawBody : String) (now : Int) (payload : WebhookPayload)
    (store : List Reminder)
    (h : (verifyQStashSignature env cv sig rawBody).valid = true) :
    (findById payload.reminderId store = none →
        webhookReminderAlertRoute env cv sig rawBody now payload store
          = { status := 200, response := .skipped "reminder_not_found",
              store := store, dispatches := [] })
    ∧ (∀ r, findById payload.reminderId store = some r → r.is_active = false →
        webhookReminderAlertRoute env cv sig rawBody now payload store
          = { status := 200, response := .skipped "inactive", store := store,
              dispatches := [] })
    ∧ (∀ r, findById payload.reminderId store = some r → r.is_active = true →
        webhookReminderAlertRoute env cv sig rawBody now payload store
          = { status := 200, response := .ok r.title,
              store :=
                if jsNotTrue payload.isRecurring && !r.is_recurring then
                  deactivateInStore r.id (updateLastAlertTimeStore r.id now store)
                else updateLastAlertTimeStore r.id now store,
              dispatches := sendNotifications r r.reminders }) := by
  refine ⟨?_, ?_, ?_⟩
  · intro hfind
    simp [webhookReminderAlertRoute, h, hfind]
  · intro r hfind hina
    simp [webhookReminderAlertRoute, h, hfind, hina]
  · intro r hfind hact
    simp [webhookReminderAlertRoute, h, hfind, hact]

/-- Closed witness for C7 (amended): a verified call on the active sample
reminder with payload isRecurring = false acknowledges, deactivates and
answers ok. -/
theorem webhook_verified_flow_witness :
    webhookReminderAlertRoute { nodeEnv := "development", currentSigningKey := none }
        (fun _ _ => true) none "raw" 1748772000000
        { reminderId := 1, isRecurring := some false } [sampleReminder]
      = { status := 200, response := .ok sampleReminder.title,
          store := deactivateInStore 1 (updateLastAlertTimeStore 1 1748772000000
            [sampleReminder]),
          dispatches := sendNotifications sampleReminder sampleReminder.reminders } :=
  (webhook_verified_flow { nodeEnv := "development", currentSigningKey := none }
      (fun _ _ => true) none "raw" 1748772000000
      { reminderId := 1, isRecurring := some false } [sampleReminder] rfl).2.2
    sampleReminder rfl rfl

/-- Claim C8: the store-level bulk delete removes exactly the reminders
whose ids are in the given list and returns the number of rows actually
deleted; a lookup of an id that never existed still returns nothing
afterwards. -/
theorem deleteBulk_deletes_present_ids (ids : List Nat) (store : List Reminder) :
    (deleteBulk ids store).1 = store.filter (fun r => !(ids.contains r.id))
    ∧ (deleteBulk ids store).2
        = (store.filter (fun r => ids.contains r.id)).length
    ∧ (∀ j, findById j store = none → findById j (deleteBulk ids store).1 = none) := by
  refine ⟨rfl, ?_, ?_⟩
  · show store.length - (store.filter (fun r => !(ids.contains r.id))).length = _
    have hsplit : (store.filter (fun r => ids.contains r.id)).length
        + (store.filter (fun r => !(ids.contains r.id))).length = store.length := by
      induction store with
      | nil => rfl
      | cons a t iht =>
        rw [List.filter_cons, List.filter_cons]
        cases hp : ids.contains a.id
        · rw [if_neg (by simp [hp]), if_pos (by simp [hp])]
          simp only [List.length_cons]
          omega
        · rw [if_pos (by simp [hp]), if_neg (by simp [hp])]
          simp only [List.length_cons]
          omega
    omega
  · intro j hj
    rw [findById, List.find?_eq_none] at hj ⊢
    intro x hx
    exact hj x (List.mem_of_mem_filter hx)

/-- Closed witness for C8 (scenario S5): deleting ids 10, 11, 12 from a
store holding only 10 and 12 deletes 2 rows, and id 11 still resolves to
nothing. -/
theorem deleteBulk_deletes_present_ids_witness :
    (deleteBulk [10, 11, 12]
        [{ sampleReminder with id := 10 }, { sampleReminder with id := 12 }]).2 = 2
    ∧ findById 11 (deleteBulk [10, 11, 12]
        [{ sampleReminder with id := 10 }, { sampleReminder with id := 12 }]).1
      = none := by
  have h := deleteBulk_deletes_present_ids [10, 11, 12]
    [{ sampleReminder with id := 10 }, { sampleReminder with id := 12 }]
  exact ⟨by rw [h.2.1]; rfl, h.2.2 11 (by rfl)⟩

/-- Claim C9 is right and the code is wrong: `createReminderRoute` performs
no alert validation, so a request whose only alert offset is 1000 ms
(rejected by the declared `AlertSchema` floor of 3000 ms) is stored and
answered 201/created. -/
theorem create_stores_offset_below_floor :
    (createReminderRoute floorViolatingInput 1 []).1 = .created 1
    ∧ ((createReminderRoute floorViolatingInput 1 []).2.map
        (fun r => r.alerts.map (fun a => a.time))) = [[1000]]
    ∧ alertSchemaValid { id := "alert-1", time := 1000 } = false :=
  ⟨rfl, rfl, by decide⟩

/-- Claim C10: signature verification passes whenever NODE_ENV is
"development", or the signature header is absent, or the current signing key
is unset; the cryptographic check is only attempted outside development with
a signature and a current signing key both present. -/
theorem verify_skip_conditions (env : Env) (cv : String → String → Bool)
    (sig : Option String) (body : String) :
    ((env.nodeEnv = "development" ∨ sig = none ∨ env.currentSigningKey = none) →
        (verifyQStashSignature env cv sig body).valid = true)
    ∧ ((verifyQStashSignature env cv sig body).attempted = true →
        env.nodeEnv ≠ "development" ∧ sig ≠ none ∧ env.currentSigningKey ≠ none) := by
  constructor
  · intro h
    rcases h with hdev | hsig | hkey
    · simp [verifyQStashSignature, hdev]
    · cases hdev : env.nodeEnv == "development" <;>
        simp [verifyQStashSignature, hdev, hsig]
    · cases hdev : env.nodeEnv == "development"
      · cases sig with
        | none => simp [verifyQStashSignature, hdev]
        | some s =>
          by_cases hs : s == "" <;>
            simp [verifyQStashSignature, hdev, hs, optStrTruthy, hkey]
      · simp [verifyQStashSignature, hdev]
  · intro h
    by_cases hdev : (env.nodeEnv == "development") = true
    · simp [verifyQStashSignature, hdev] at h
    · cases hsig : sig with
      | none => simp [verifyQStashSignature, hdev, hsig] at h
      | some s =>
        by_cases hskip : (s == "" || !(optStrTruthy env.currentSigningKey)) = true
        · simp [verifyQStashSignature, hdev, hsig, hskip] at h
        · refine ⟨fun hd => hdev (by simp [hd]), by simp [hsig], fun hk => ?_⟩
          exact hskip (by simp [optStrTruthy, hk])

/-- Closed witness for C10: in development an unverifiable request still
passes. -/
theorem verify_skip_conditions_witness :
    (verifyQStashSignature { nodeEnv := "development", currentSigningKey := none }
        (fun _ _ => false) (some "sig") "body").valid = true :=
  (verify_skip_conditions { nodeEnv := "development", currentSigningKey := none }
      (fun _ _ => false) (some "sig") "body").1 (Or.inl rfl)

end RemindersBun
